import Mathlib

/-!
Shallow embedding of the announcements router
(`src/backend/routers/announcements.py`) of the school management system:
list / create / update / delete endpoints over a document store of
announcements, with existence-only authentication against a principal
(teacher) store.

The document store and the principal store themselves are external
collaborators (out of scope per the spec); they are modelled here as
association lists keyed by the store key `_id`, with Mongo-style
first-match `find_one` / `update_one` / `delete_one` semantics and a
counter-based fresh-id assignment for `insert_one`.
-/

/-- A stored announcement document (the fields the handler writes;
the store key `_id` is kept separately as the key of the association list). -/
structure Announcement where
  message : String
  start_date : Option String
  expiration_date : String
  created_by : String
  deriving Repr, DecidableEq

/-- An announcement as returned by the API: the store key is exposed under
`id` and the internal `_id` field is removed (`ann["id"] = str(ann["_id"]); ann.pop("_id")`). -/
structure AnnouncementOut where
  message : String
  start_date : Option String
  expiration_date : String
  created_by : String
  id : String
  deriving Repr, DecidableEq

/-- A teacher (principal) record; the handler only reads its `username` field
(`username["username"]`). -/
structure Teacher where
  username : String
  deriving Repr, DecidableEq

/-- Modelled from the spec: the Principal Store (`teachers_collection` in the
missing `database` module), a document store keyed by `_id`, supporting
lookup of a principal record by id (existence check only). -/
def TeachersCollection := List (String × Teacher)

/-- Modelled from the spec: the Document Store for announcements
(`announcements_collection` in the missing `database` module): schemaless
record CRUD; the store assigns a fresh opaque id on creation.  The counter
`nextId` models the store's fresh-id generator. -/
structure AnnouncementsCollection where
  docs : List (String × Announcement)
  nextId : Nat
  deriving Repr, DecidableEq

/-- `teachers_collection.find_one({"_id": username})`. -/
def TeachersCollection.find_one (teachers : TeachersCollection) (id : String) :
    Option (String × Teacher) :=
  teachers.find? (fun p => p.1 == id)

/-- `announcements_collection.find_one({"_id": announcement_id})` —
first document whose `_id` equals the given id. -/
def AnnouncementsCollection.find_one (store : AnnouncementsCollection) (id : String) :
    Option (String × Announcement) :=
  store.docs.find? (fun p => p.1 == id)

/-- `announcements_collection.insert_one(ann)` — the store assigns a fresh id
(modelled by the counter) and returns it (`result.inserted_id`). -/
def AnnouncementsCollection.insert_one (store : AnnouncementsCollection)
    (ann : Announcement) : String × AnnouncementsCollection :=
  let newId := toString store.nextId
  (newId, ⟨store.docs ++ [(newId, ann)], store.nextId + 1⟩)

/-- Apply a `$set` patch built by `update_announcement`: each of the three
fields is present in the patch exactly when the corresponding argument was
supplied (`is not None`). -/
def applySet (a : Announcement) (message expiration_date start_date : Option String) :
    Announcement :=
  { a with
    message := message.getD a.message
    expiration_date := expiration_date.getD a.expiration_date
    start_date := match start_date with | some s => some s | none => a.start_date }

/-- `update_one({"_id": id}, {"$set": update})` on the document list:
updates the first document whose `_id` matches, returns `matched_count`. -/
def updateDocs (id : String) (message expiration_date start_date : Option String) :
    List (String × Announcement) → Nat × List (String × Announcement)
  | [] => (0, [])
  | (k, a) :: rest =>
    if k == id then
      (1, (k, applySet a message expiration_date start_date) :: rest)
    else
      ((updateDocs id message expiration_date start_date rest).1,
       (k, a) :: (updateDocs id message expiration_date start_date rest).2)

/-- `announcements_collection.update_one({"_id": id}, {"$set": update})`. -/
def AnnouncementsCollection.update_one (store : AnnouncementsCollection) (id : String)
    (message expiration_date start_date : Option String) :
    Nat × AnnouncementsCollection :=
  ((updateDocs id message expiration_date start_date store.docs).1,
   ⟨(updateDocs id message expiration_date start_date store.docs).2, store.nextId⟩)

/-- `delete_one({"_id": id})` on the document list: removes the first document
whose `_id` matches, returns `deleted_count`. -/
def deleteDocs (id : String) :
    List (String × Announcement) → Nat × List (String × Announcement)
  | [] => (0, [])
  | (k, a) :: rest =>
    if k == id then
      (1, rest)
    else
      ((deleteDocs id rest).1, (k, a) :: (deleteDocs id rest).2)

/-- `announcements_collection.delete_one({"_id": id})`. -/
def AnnouncementsCollection.delete_one (store : AnnouncementsCollection) (id : String) :
    Nat × AnnouncementsCollection :=
  ((deleteDocs id store.docs).1, ⟨(deleteDocs id store.docs).2, store.nextId⟩)

/-- The errors the handler raises (`HTTPException` status codes), plus
`internalError` for an unhandled exception (e.g. `find_one` returning `None`
where the code indexes into it). -/
inductive ApiError where
  | authenticationError
  | validationError
  | notFoundError
  | internalError
  deriving Repr, DecidableEq

/-- HTTP status code of each error. -/
def ApiError.status : ApiError → Nat
  | .authenticationError => 401
  | .validationError => 400
  | .notFoundError => 404
  | .internalError => 500

/-- `require_auth`: look the caller's identity up in the teacher store;
401 unless a record exists. -/
def require_auth (teachers : TeachersCollection) (username : String) :
    Except ApiError Teacher :=
  match teachers.find_one username with
  | none => .error .authenticationError
  | some (_, user) => .ok user

/-- Lexicographic comparison of code-point lists (the order Python and the
document store use on strings). -/
def charListLe : List Char → List Char → Bool
  | [], _ => true
  | _ :: _, [] => false
  | a :: as, b :: bs =>
    if a < b then true
    else if b < a then false
    else charListLe as bs

/-- Lexical string comparison `a <= b` by code points: the comparison the
date-window filter applies to ISO-8601 timestamp strings. -/
def strLe (a b : String) : Bool := charListLe a.data b.data

/-- The `$or` clause of the active query:
`[{"start_date": None}, {"start_date": {"$lte": now}}]` —
`{"start_date": None}` matches a null/absent `start_date`; the `$lte` clause
only matches an actual string value. -/
def matchesStartDate (now : String) (o : Option String) : Bool :=
  match o with
  | none => true
  | some s => strLe s now

/-- The Mongo query built by `get_announcements` when `active_only` is true:
`{"$or": [{"start_date": None}, {"start_date": {"$lte": now}}],
  "expiration_date": {"$gte": now}}`, all comparisons lexical. -/
def matchesActiveQuery (now : String) (a : Announcement) : Bool :=
  matchesStartDate now a.start_date && strLe now a.expiration_date

/-- Shape a stored document for the response: expose the store key under `id`
and drop the internal `_id` field. -/
def shapeOut (p : String × Announcement) : AnnouncementOut :=
  ⟨p.2.message, p.2.start_date, p.2.expiration_date, p.2.created_by, p.1⟩

/-- `get_announcements(active_only)`: `find` with the empty query or the
active-window query, then shape each document (`now` is
`datetime.utcnow().isoformat()`, passed explicitly). -/
def get_announcements (store : AnnouncementsCollection) (active_only : Bool)
    (now : String) : List AnnouncementOut :=
  let anns :=
    if active_only then store.docs.filter (fun p => matchesActiveQuery now p.2)
    else store.docs
  anns.map shapeOut

/-- `create_announcement(message, expiration_date, start_date, username)`:
auth, reject empty `expiration_date` (`if not expiration_date`), insert,
return the record with the new id.  Returns the response together with the
resulting store state. -/
def create_announcement (store : AnnouncementsCollection)
    (teachers : TeachersCollection) (message : String) (expiration_date : String)
    (start_date : Option String) (username : String) :
    Except ApiError AnnouncementOut × AnnouncementsCollection :=
  match require_auth teachers username with
  | .error e => (.error e, store)
  | .ok user =>
    if expiration_date == "" then
      (.error .validationError, store)
    else
      let ann : Announcement :=
        ⟨message, start_date, expiration_date, user.username⟩
      (.ok ⟨ann.message, ann.start_date, ann.expiration_date, ann.created_by,
            (store.insert_one ann).1⟩,
       (store.insert_one ann).2)

/-- `update_announcement(announcement_id, message, expiration_date, start_date,
username)`: auth, build the `$set` patch from the supplied fields, 400 if the
patch is empty, `update_one`, 404 if nothing matched, then `find_one` the
record back and return it shaped. -/
def update_announcement (store : AnnouncementsCollection)
    (teachers : TeachersCollection) (announcement_id : String)
    (message expiration_date start_date : Option String) (username : String) :
    Except ApiError AnnouncementOut × AnnouncementsCollection :=
  match require_auth teachers username with
  | .error e => (.error e, store)
  | .ok _ =>
    if message.isNone && expiration_date.isNone && start_date.isNone then
      (.error .validationError, store)
    else
      if (store.update_one announcement_id message expiration_date start_date).1 == 0 then
        (.error .notFoundError,
         (store.update_one announcement_id message expiration_date start_date).2)
      else
        match (store.update_one announcement_id message expiration_date
            start_date).2.find_one announcement_id with
        | some p =>
          (.ok (shapeOut p),
           (store.update_one announcement_id message expiration_date start_date).2)
        | none =>
          (.error .internalError,
           (store.update_one announcement_id message expiration_date start_date).2)

/-- `delete_announcement(announcement_id, username)`: auth, `delete_one`,
404 if nothing was deleted, else a confirmation message. -/
def delete_announcement (store : AnnouncementsCollection)
    (teachers : TeachersCollection) (announcement_id : String) (username : String) :
    Except ApiError String × AnnouncementsCollection :=
  match require_auth teachers username with
  | .error e => (.error e, store)
  | .ok _ =>
    if (store.delete_one announcement_id).1 == 0 then
      (.error .notFoundError, (store.delete_one announcement_id).2)
    else
      (.ok "Announcement deleted", (store.delete_one announcement_id).2)

/-- A request to the router, as dispatched by the framework.  Only
`create`/`update`/`delete` carry a caller identity: `get_announcements` has no
`Depends(require_auth)` parameter. -/
inductive Request where
  | list (active_only : Bool)
  | create (message expiration_date : String) (start_date : Option String)
      (username : String)
  | update (announcement_id : String)
      (message expiration_date start_date : Option String) (username : String)
  | delete (announcement_id : String) (username : String)
  deriving Repr, DecidableEq

/-- A successful response body. -/
inductive Response where
  | records (l : List AnnouncementOut)
  | record (a : AnnouncementOut)
  | confirmation (m : String)
  deriving Repr, DecidableEq

/-- The router: dispatch a request to the matching handler. -/
def handle (teachers : TeachersCollection) (store : AnnouncementsCollection)
    (now : String) : Request → Except ApiError Response × AnnouncementsCollection
  | .list active_only => (.ok (.records (get_announcements store active_only now)), store)
  | .create message expiration_date start_date username =>
    let (r, store') :=
      create_announcement store teachers message expiration_date start_date username
    (r.map .record, store')
  | .update announcement_id message expiration_date start_date username =>
    let (r, store') :=
      update_announcement store teachers announcement_id message expiration_date
        start_date username
    (r.map .record, store')
  | .delete announcement_id username =>
    let (r, store') := delete_announcement store teachers announcement_id username
    (r.map .confirmation, store')

/-! ## Concrete fixtures used by the witnesses -/

/-- A principal store holding the single teacher `jdoe`. -/
def teachersEx : TeachersCollection := [("jdoe", ⟨"jdoe"⟩)]

/-- The empty announcement store. -/
def emptyStore : AnnouncementsCollection := ⟨[], 0⟩

/-- A store holding one announcement under id `"0"`. -/
def storeEx : AnnouncementsCollection :=
  ⟨[("0", ⟨"Picture day", none, "2025-01-10T00:00:00", "jdoe"⟩)], 1⟩

/-! ## Lemmas about the store primitives -/

theorem find?_append_of_none {α : Type} (p : α → Bool) (l₁ l₂ : List α)
    (h : l₁.find? p = none) : (l₁ ++ l₂).find? p = l₂.find? p := by
  induction l₁ with
  | nil => rfl
  | cons hd tl ih =>
    rw [List.find?_cons] at h
    cases hp : p hd with
    | true => simp [hp] at h
    | false =>
      simp only [hp] at h
      rw [List.cons_append, List.find?_cons, hp]
      exact ih h

theorem updateDocs_of_none (id : String) (m e s : Option String)
    (l : List (String × Announcement))
    (h : l.find? (fun p => p.1 == id) = none) :
    updateDocs id m e s l = (0, l) := by
  induction l with
  | nil => rfl
  | cons hd tl ih =>
    obtain ⟨k0, a0⟩ := hd
    rw [List.find?_cons] at h
    cases hk : (k0 == id) with
    | true => simp [hk] at h
    | false =>
      simp only [hk] at h
      simp [updateDocs, hk, ih h]

theorem updateDocs_spec (id : String) (m e s : Option String)
    (l : List (String × Announcement)) (k : String) (a : Announcement)
    (h : l.find? (fun p => p.1 == id) = some (k, a)) :
    (updateDocs id m e s l).1 = 1 ∧
    (updateDocs id m e s l).2.find? (fun p => p.1 == id)
      = some (k, applySet a m e s) ∧
    ∀ k', k' ≠ id →
      (updateDocs id m e s l).2.find? (fun p => p.1 == k')
        = l.find? (fun p => p.1 == k') := by
  induction l with
  | nil => simp at h
  | cons hd tl ih =>
    obtain ⟨k0, a0⟩ := hd
    cases hk : (k0 == id) with
    | true =>
      have hkid : k0 = id := by simpa using hk
      rw [List.find?_cons_of_pos _ (by simpa using hk)] at h
      obtain ⟨hk1, ha1⟩ : k0 = k ∧ a0 = a := by
        constructor <;> injection h with h' <;> simp_all
      subst hk1; subst ha1
      refine ⟨by simp [updateDocs, hk], ?_, ?_⟩
      · simp [updateDocs, hk, List.find?_cons]
      · intro k' hk'
        have hne : (k0 == k') = false := by
          simp only [beq_eq_false_iff_ne, ne_eq]
          rw [hkid]; exact fun hc => hk' hc.symm
        simp [updateDocs, hk, List.find?_cons, hne]
    | false =>
      rw [List.find?_cons_of_neg _ (by simp [hk])] at h
      obtain ⟨ih1, ih2, ih3⟩ := ih h
      refine ⟨by simp [updateDocs, hk, ih1], ?_, ?_⟩
      · simpa [updateDocs, hk, List.find?_cons] using ih2
      · intro k' hk'
        cases hk0' : (k0 == k') with
        | true => simp [updateDocs, hk, List.find?_cons, hk0']
        | false => simpa [updateDocs, hk, List.find?_cons, hk0'] using ih3 k' hk'

theorem deleteDocs_snd (id : String) (l : List (String × Announcement)) :
    (deleteDocs id l).2 = l.eraseP (fun p => p.1 == id) := by
  induction l with
  | nil => rfl
  | cons hd tl ih =>
    obtain ⟨k0, a0⟩ := hd
    cases hk : (k0 == id) with
    | true => simp [deleteDocs, hk, List.eraseP_cons]
    | false => simp [deleteDocs, hk, List.eraseP_cons, ih]

theorem deleteDocs_of_none (id : String) (l : List (String × Announcement))
    (h : l.find? (fun p => p.1 == id) = none) :
    deleteDocs id l = (0, l) := by
  induction l with
  | nil => rfl
  | cons hd tl ih =>
    obtain ⟨k0, a0⟩ := hd
    rw [List.find?_cons] at h
    cases hk : (k0 == id) with
    | true => simp [hk] at h
    | false =>
      simp only [hk] at h
      simp [deleteDocs, hk, ih h]

theorem deleteDocs_fst (id : String) (l : List (String × Announcement))
    (k : String) (a : Announcement)
    (h : l.find? (fun p => p.1 == id) = some (k, a)) :
    (deleteDocs id l).1 = 1 := by
  induction l with
  | nil => simp at h
  | cons hd tl ih =>
    obtain ⟨k0, a0⟩ := hd
    cases hk : (k0 == id) with
    | true => simp [deleteDocs, hk]
    | false =>
      rw [List.find?_cons_of_neg _ (by simp [hk])] at h
      simp [deleteDocs, hk, ih h]

theorem deleteDocs_frame (id : String) (l : List (String × Announcement))
    (k' : String) (hk' : k' ≠ id) :
    (deleteDocs id l).2.find? (fun p => p.1 == k')
      = l.find? (fun p => p.1 == k') := by
  induction l with
  | nil => rfl
  | cons hd tl ih =>
    obtain ⟨k0, a0⟩ := hd
    cases hk : (k0 == id) with
    | true =>
      have hkid : k0 = id := by simpa using hk
      have hne : (k0 == k') = false := by
        simp only [beq_eq_false_iff_ne, ne_eq]
        rw [hkid]; exact fun hc => hk' hc.symm
      simp [deleteDocs, hk, List.find?_cons, hne]
    | false =>
      cases hk0' : (k0 == k') with
      | true => simp [deleteDocs, hk, List.find?_cons, hk0']
      | false => simpa [deleteDocs, hk, List.find?_cons, hk0'] using ih

theorem deleteDocs_none_after (id : String) (l : List (String × Announcement))
    (hnodup : (l.map Prod.fst).Nodup) :
    (deleteDocs id l).2.find? (fun p => p.1 == id) = none := by
  induction l with
  | nil => rfl
  | cons hd tl ih =>
    obtain ⟨k0, a0⟩ := hd
    rw [List.map_cons, List.nodup_cons] at hnodup
    obtain ⟨hk0, htl⟩ := hnodup
    cases hk : (k0 == id) with
    | true =>
      have hkid : k0 = id := by simpa using hk
      subst hkid
      simp only [deleteDocs, hk]
      rw [List.find?_eq_none]
      intro p hp
      have : p.1 ∈ tl.map Prod.fst := List.mem_map_of_mem Prod.fst hp
      have : p.1 ≠ k0 := fun hc => hk0 (hc ▸ this)
      simpa using this
    | false =>
      simpa [deleteDocs, hk, List.find?_cons] using ih htl

theorem matchesStartDate_iff (now : String) (o : Option String) :
    matchesStartDate now o = true ↔
      (o = none ∨ ∃ s, o = some s ∧ strLe s now = true) := by
  cases o <;> simp [matchesStartDate]

/-! ## The claims -/

/-- C1: for every store state and rendering `now` of the current UTC time,
`list(active_only=true)` returns exactly the records satisfying
(`start_date` absent/null OR `start_date` ≤ now) AND `expiration_date` ≥ now,
under lexical string comparison; `list(active_only=false)` returns every
record unfiltered; each returned record carries the store-assigned identifier
under `id` and no internal store key field. -/
theorem get_announcements_spec (store : AnnouncementsCollection) (now : String) :
    (∀ out, out ∈ get_announcements store true now ↔
      ∃ p ∈ store.docs,
        (p.2.start_date = none ∨ ∃ s, p.2.start_date = some s ∧ strLe s now = true) ∧
        strLe now p.2.expiration_date = true ∧
        out = ⟨p.2.message, p.2.start_date, p.2.expiration_date, p.2.created_by, p.1⟩) ∧
    get_announcements store false now = store.docs.map shapeOut := by
  constructor
  · intro out
    simp only [get_announcements, if_true, List.mem_map, List.mem_filter,
      matchesActiveQuery, Bool.and_eq_true, matchesStartDate_iff, shapeOut]
    constructor
    · rintro ⟨p, ⟨hmem, hstart, hexp⟩, hout⟩
      exact ⟨p, hmem, hstart, hexp, hout.symm⟩
    · rintro ⟨p, hmem, hstart, hexp, hout⟩
      exact ⟨p, ⟨hmem, hstart, hexp⟩, hout.symm⟩
  · simp [get_announcements]

/-- C10: `list` requires no authentication: whatever the principal store
holds, `list(active_only)` never fails (in particular never with
`AuthenticationError`) and performs no principal lookup — its outcome is
independent of the principal store. -/
theorem list_requires_no_auth (teachers teachers' : TeachersCollection)
    (store : AnnouncementsCollection) (now : String) (active_only : Bool) :
    handle teachers store now (.list active_only)
      = (.ok (.records (get_announcements store active_only now)), store) ∧
    handle teachers store now (.list active_only)
      = handle teachers' store now (.list active_only) :=
  ⟨rfl, rfl⟩

/-- C3: `create`, `update` and `delete` fail with `AuthenticationError` (401)
if and only if no principal record with the caller's identity exists in the
principal store; on that failure no validation happens and the store is
unchanged. -/
theorem auth_existence_gate (store : AnnouncementsCollection)
    (teachers : TeachersCollection) (username message expiration_date : String)
    (start_date : Option String) (announcement_id : String)
    (m e s : Option String) :
    ((create_announcement store teachers message expiration_date start_date
        username).1 = .error .authenticationError
      ↔ teachers.find_one username = none) ∧
    ((update_announcement store teachers announcement_id m e s username).1
        = .error .authenticationError
      ↔ teachers.find_one username = none) ∧
    ((delete_announcement store teachers announcement_id username).1
        = .error .authenticationError
      ↔ teachers.find_one username = none) ∧
    (teachers.find_one username = none →
      (create_announcement store teachers message expiration_date start_date
          username).2 = store ∧
      (update_announcement store teachers announcement_id m e s username).2
          = store ∧
      (delete_announcement store teachers announcement_id username).2 = store) := by
  cases h : teachers.find_one username with
  | none =>
    simp [create_announcement, update_announcement, delete_announcement,
      require_auth, h]
  | some p =>
    obtain ⟨k, u⟩ := p
    refine ⟨?_, ?_, ?_, by simp [h]⟩
    · simp only [create_announcement, require_auth, h]
      split <;> simp [h]
    · simp only [update_announcement, require_auth, h]
      split
      · simp [h]
      · split
        · simp [h]
        · split <;> simp [h]
    · simp only [delete_announcement, require_auth, h]
      split <;> simp [h]

/-- C6: for an authenticated caller, `create` with an empty `expiration_date`
fails with `ValidationError` (400) and persists nothing: the store is
returned unchanged. -/
theorem create_empty_expiration_rejected (store : AnnouncementsCollection)
    (teachers : TeachersCollection) (message : String) (start_date : Option String)
    (username : String) (k : String) (u : Teacher)
    (hauth : teachers.find_one username = some (k, u)) :
    create_announcement store teachers message "" start_date username
      = (.error .validationError, store) := by
  simp [create_announcement, require_auth, hauth]

/-- Witness for C6 at a concrete input. -/
theorem create_empty_expiration_rejected_witness :
    create_announcement emptyStore teachersEx "Picture day" "" none "jdoe"
      = (.error .validationError, emptyStore) :=
  create_empty_expiration_rejected emptyStore teachersEx "Picture day" none
    "jdoe" "jdoe" ⟨"jdoe"⟩ rfl

/-- C5: for an authenticated caller, `update` with zero supplied fields fails
with `ValidationError` (400) and mutates nothing; with at least one supplied
field but no matching record it fails with `NotFoundError` (404) and mutates
nothing. -/
theorem update_validation_and_not_found (store : AnnouncementsCollection)
    (teachers : TeachersCollection) (announcement_id username : String)
    (k : String) (u : Teacher)
    (hauth : teachers.find_one username = some (k, u)) :
    update_announcement store teachers announcement_id none none none username
      = (.error .validationError, store) ∧
    (∀ m e s : Option String, (m.isSome || e.isSome || s.isSome) = true →
      store.find_one announcement_id = none →
      update_announcement store teachers announcement_id m e s username
        = (.error .notFoundError, store)) := by
  constructor
  · simp [update_announcement, require_auth, hauth]
  · intro m e s hsome hnone
    have hguard : (m.isNone && e.isNone && s.isNone) = false := by
      cases m <;> cases e <;> cases s <;> simp_all
    have hupd : updateDocs announcement_id m e s store.docs = (0, store.docs) :=
      updateDocs_of_none _ _ _ _ _ hnone
    simp [update_announcement, require_auth, hauth, hguard,
      AnnouncementsCollection.update_one, hupd]

/-- Witness for C5 at concrete inputs: zero fields on an existing id, and one
field on a missing id. -/
theorem update_validation_and_not_found_witness :
    update_announcement storeEx teachersEx "0" none none none "jdoe"
      = (.error .validationError, storeEx) ∧
    update_announcement storeEx teachersEx "missing" (some "x") none none "jdoe"
      = (.error .notFoundError, storeEx) :=
  ⟨(update_validation_and_not_found storeEx teachersEx "0" "jdoe" "jdoe"
      ⟨"jdoe"⟩ rfl).1,
   (update_validation_and_not_found storeEx teachersEx "missing" "jdoe" "jdoe"
      ⟨"jdoe"⟩ rfl).2 (some "x") none none rfl rfl⟩

theorem applySet_eq (a : Announcement) (m e s : Option String) :
    applySet a m e s
      = ⟨m.getD a.message, s.or a.start_date, e.getD a.expiration_date,
         a.created_by⟩ := by
  cases s <;> rfl

/-- C4: for an authenticated caller updating an existing record with at least
one supplied field, exactly the supplied fields among `message`,
`expiration_date`, `start_date` change; unsupplied fields, the record's key
and `created_by` are untouched; the full post-update record is returned. -/
theorem update_partial_frame (store : AnnouncementsCollection)
    (teachers : TeachersCollection) (announcement_id username : String)
    (k : String) (u : Teacher) (a : Announcement) (m e s : Option String)
    (hauth : teachers.find_one username = some (k, u))
    (hfound : store.find_one announcement_id = some (announcement_id, a))
    (hsupplied : (m.isSome || e.isSome || s.isSome) = true) :
    (update_announcement store teachers announcement_id m e s username).1
      = .ok ⟨m.getD a.message, s.or a.start_date, e.getD a.expiration_date,
             a.created_by, announcement_id⟩ ∧
    (update_announcement store teachers announcement_id m e s
        username).2.find_one announcement_id
      = some (announcement_id,
          ⟨m.getD a.message, s.or a.start_date, e.getD a.expiration_date,
           a.created_by⟩) ∧
    (∀ k', k' ≠ announcement_id →
      (update_announcement store teachers announcement_id m e s
          username).2.find_one k' = store.find_one k') ∧
    (update_announcement store teachers announcement_id m e s username).2.nextId
      = store.nextId := by
  have hguard : (m.isNone && e.isNone && s.isNone) = false := by
    cases m <;> cases e <;> cases s <;> simp_all
  obtain ⟨h1, h2, h3⟩ :=
    updateDocs_spec announcement_id m e s store.docs announcement_id a hfound
  refine ⟨?_, ?_, ?_, ?_⟩
  · simp [update_announcement, require_auth, hauth, hguard,
      AnnouncementsCollection.update_one, AnnouncementsCollection.find_one, h1,
      h2, shapeOut, applySet_eq]
  · simp [update_announcement, require_auth, hauth, hguard,
      AnnouncementsCollection.update_one, AnnouncementsCollection.find_one, h1,
      h2, applySet_eq]
  · intro k' hk'
    simp [update_announcement, require_auth, hauth, hguard,
      AnnouncementsCollection.update_one, AnnouncementsCollection.find_one, h1,
      h2, h3 k' hk']
  · simp [update_announcement, require_auth, hauth, hguard,
      AnnouncementsCollection.update_one, AnnouncementsCollection.find_one, h1,
      h2]

/-- Witness for C4 at a concrete input: update only `message`, the other
fields keep their stored values. -/
theorem update_partial_frame_witness :
    (update_announcement storeEx teachersEx "0" (some "new") none none
        "jdoe").1
      = .ok ⟨"new", none, "2025-01-10T00:00:00", "jdoe", "0"⟩ ∧
    (update_announcement storeEx teachersEx "0" (some "new") none none
        "jdoe").2.find_one "0"
      = some ("0", ⟨"new", none, "2025-01-10T00:00:00", "jdoe"⟩) ∧
    (∀ k', k' ≠ "0" →
      (update_announcement storeEx teachersEx "0" (some "new") none none
          "jdoe").2.find_one k' = storeEx.find_one k') ∧
    (update_announcement storeEx teachersEx "0" (some "new") none none
        "jdoe").2.nextId = storeEx.nextId :=
  update_partial_frame storeEx teachersEx "0" "jdoe" "jdoe" ⟨"jdoe"⟩
    ⟨"Picture day", none, "2025-01-10T00:00:00", "jdoe"⟩ (some "new") none none
    rfl rfl rfl

/-- C2: for an authenticated caller (whose principal record carries the
caller's identity as its `username`) and a non-empty `expiration_date`,
`create` persists a new record with `created_by` equal to the caller's
identity under a store-assigned fresh id, and returns the full created record
(message, start_date, expiration_date, created_by, the new id) with no
internal store key field; looking the new id up retrieves the record. -/
theorem create_announcement_spec (store : AnnouncementsCollection)
    (teachers : TeachersCollection) (message expiration_date : String)
    (start_date : Option String) (username : String) (k : String) (u : Teacher)
    (hauth : teachers.find_one username = some (k, u))
    (huser : u.username = username)
    (hexp : expiration_date ≠ "")
    (hfresh : toString store.nextId ∉ store.docs.map Prod.fst) :
    create_announcement store teachers message expiration_date start_date
        username
      = (.ok ⟨message, start_date, expiration_date, username,
              toString store.nextId⟩,
         ⟨store.docs
            ++ [(toString store.nextId,
                 ⟨message, start_date, expiration_date, username⟩)],
          store.nextId + 1⟩) ∧
    (create_announcement store teachers message expiration_date start_date
        username).2.find_one (toString store.nextId)
      = some (toString store.nextId,
              ⟨message, start_date, expiration_date, username⟩) := by
  have hbeq : (expiration_date == "") = false := beq_eq_false_iff_ne.mpr hexp
  constructor
  · simp [create_announcement, require_auth, hauth, hbeq,
      AnnouncementsCollection.insert_one, huser]
  · have hnone :
        store.docs.find? (fun p => p.1 == toString store.nextId) = none := by
      rw [List.find?_eq_none]
      intro p hp
      simp only [beq_eq_false_iff_ne, ne_eq, Bool.not_eq_true]
      intro hc
      exact hfresh (hc ▸ List.mem_map_of_mem Prod.fst hp)
    simp only [create_announcement, require_auth, hauth, hbeq,
      AnnouncementsCollection.insert_one, AnnouncementsCollection.find_one,
      Bool.false_eq_true, if_false]
    rw [find?_append_of_none _ _ _ hnone]
    simp [huser, List.find?_cons]

/-- Witness for C2 at a concrete input (the spec's own example: caller `jdoe`
creates "Picture day"). -/
theorem create_announcement_spec_witness :
    create_announcement emptyStore teachersEx "Picture day"
        "2025-01-10T00:00:00" none "jdoe"
      = (.ok ⟨"Picture day", none, "2025-01-10T00:00:00", "jdoe", "0"⟩,
         ⟨[("0", ⟨"Picture day", none, "2025-01-10T00:00:00", "jdoe"⟩)], 1⟩) ∧
    (create_announcement emptyStore teachersEx "Picture day"
        "2025-01-10T00:00:00" none "jdoe").2.find_one "0"
      = some ("0", ⟨"Picture day", none, "2025-01-10T00:00:00", "jdoe"⟩) := by
  exact create_announcement_spec emptyStore teachersEx "Picture day"
    "2025-01-10T00:00:00" none "jdoe" "jdoe" ⟨"jdoe"⟩ rfl rfl (by decide)
    (by simp [emptyStore])

/-- C7: for an authenticated caller on a store with distinct ids, `delete` of
an existing id removes that record (and no other) and returns the
confirmation message; `delete` of a missing id fails with `NotFoundError`
(404); hence deleting the same id twice succeeds first and fails not-found
second. -/
theorem delete_announcement_spec (store : AnnouncementsCollection)
    (teachers : TeachersCollection) (announcement_id username : String)
    (k : String) (u : Teacher)
    (hauth : teachers.find_one username = some (k, u))
    (hnodup : (store.docs.map Prod.fst).Nodup) :
    (∀ a, store.find_one announcement_id = some (announcement_id, a) →
      delete_announcement store teachers announcement_id username
        = (.ok "Announcement deleted",
           ⟨store.docs.eraseP (fun p => p.1 == announcement_id),
            store.nextId⟩) ∧
      (delete_announcement store teachers announcement_id
          username).2.find_one announcement_id = none ∧
      (∀ k', k' ≠ announcement_id →
        (delete_announcement store teachers announcement_id
            username).2.find_one k' = store.find_one k') ∧
      delete_announcement
          (delete_announcement store teachers announcement_id username).2
          teachers announcement_id username
        = (.error .notFoundError,
           (delete_announcement store teachers announcement_id username).2)) ∧
    (store.find_one announcement_id = none →
      delete_announcement store teachers announcement_id username
        = (.error .notFoundError, store)) := by
  constructor
  · intro a hfound
    have h1 : (deleteDocs announcement_id store.docs).1 = 1 :=
      deleteDocs_fst _ _ _ _ hfound
    have hdel : delete_announcement store teachers announcement_id username
        = (.ok "Announcement deleted",
           ⟨(deleteDocs announcement_id store.docs).2, store.nextId⟩) := by
      simp [delete_announcement, require_auth, hauth,
        AnnouncementsCollection.delete_one, h1]
    have hafter :
        (deleteDocs announcement_id store.docs).2.find?
          (fun p => p.1 == announcement_id) = none :=
      deleteDocs_none_after _ _ hnodup
    refine ⟨?_, ?_, ?_, ?_⟩
    · rw [hdel, deleteDocs_snd]
    · rw [hdel]
      exact hafter
    · intro k' hk'
      rw [hdel]
      exact deleteDocs_frame _ _ _ hk'
    · rw [hdel]
      have hnone2 := deleteDocs_of_none announcement_id _ hafter
      simp [delete_announcement, require_auth, hauth,
        AnnouncementsCollection.delete_one, hnone2]
  · intro hnone
    have h0 := deleteDocs_of_none announcement_id store.docs hnone
    simp [delete_announcement, require_auth, hauth,
      AnnouncementsCollection.delete_one, h0]

/-- Witness for C7 at a concrete input: deleting id `"0"` once succeeds and
empties the store, deleting it again fails not-found. -/
theorem delete_announcement_spec_witness :
    delete_announcement storeEx teachersEx "0" "jdoe"
      = (.ok "Announcement deleted", ⟨[], 1⟩) ∧
    delete_announcement (delete_announcement storeEx teachersEx "0" "jdoe").2
        teachersEx "0" "jdoe"
      = (.error .notFoundError,
         (delete_announcement storeEx teachersEx "0" "jdoe").2) := by
  have h := (delete_announcement_spec storeEx teachersEx "0" "jdoe" "jdoe"
      ⟨"jdoe"⟩ rfl (by decide)).1
    ⟨"Picture day", none, "2025-01-10T00:00:00", "jdoe"⟩ rfl
  exact ⟨h.1, h.2.2.2⟩

/-- C8: `create` then `list` round-trips: a successfully created record
appears, unchanged (same message, start_date, expiration_date, created_by and
id), in a subsequent `list(active_only=false)` on the resulting store. -/
theorem create_then_list_roundtrip (store : AnnouncementsCollection)
    (teachers : TeachersCollection) (message expiration_date : String)
    (start_date : Option String) (username now : String) (out : AnnouncementOut)
    (hok : (create_announcement store teachers message expiration_date
        start_date username).1 = .ok out) :
    out ∈ get_announcements
      (create_announcement store teachers message expiration_date start_date
        username).2 false now := by
  cases h : require_auth teachers username with
  | error e => simp [create_announcement, h] at hok
  | ok u =>
    cases hexp : (expiration_date == "") with
    | true => simp [create_announcement, h, hexp] at hok
    | false =>
      simp only [create_announcement, h, hexp, Bool.false_eq_true, if_false,
        AnnouncementsCollection.insert_one] at hok ⊢
      obtain rfl := Except.ok.inj hok
      simp only [get_announcements, Bool.false_eq_true, if_false,
        List.map_append, List.map_cons, List.map_nil]
      exact List.mem_append_right _ (by simp [shapeOut])

/-- C9 counterexample: omitting `expiration_date` on update does NOT leave the
stored record without an `expiration_date` — at this concrete input (update of
the only record, supplying only `message`), the stored record keeps its
`expiration_date` exactly as it was. -/
theorem update_omission_keeps_expiration_cex :
    (update_announcement storeEx teachersEx "0" (some "new message") none none
        "jdoe").2
      = ⟨[("0", ⟨"new message", none, "2025-01-10T00:00:00", "jdoe"⟩)], 1⟩ := by
  decide

/-- C9 (amended): the `expiration_date` presence/non-emptiness invariant is
enforced only on create (empty is rejected 400) and not re-validated on
update: an update that omits the field leaves the stored value untouched (it
cannot null it out), while an update that supplies `expiration_date` stores
it without any validation — including the empty string. -/
theorem expiration_enforced_only_on_create (store : AnnouncementsCollection)
    (teachers : TeachersCollection) (username : String) (k : String)
    (u : Teacher)
    (hauth : teachers.find_one username = some (k, u)) :
    (∀ message start_date,
      create_announcement store teachers message "" start_date username
        = (.error .validationError, store)) ∧
    (∀ announcement_id a m s, (m.isSome || s.isSome) = true →
      store.find_one announcement_id = some (announcement_id, a) →
      (update_announcement store teachers announcement_id m none s
          username).2.find_one announcement_id
        = some (announcement_id,
            ⟨m.getD a.message, s.or a.start_date, a.expiration_date,
             a.created_by⟩)) ∧
    (∀ announcement_id a e,
      store.find_one announcement_id = some (announcement_id, a) →
      (update_announcement store teachers announcement_id none (some e) none
          username).2.find_one announcement_id
        = some (announcement_id,
            ⟨a.message, a.start_date, e, a.created_by⟩)) := by
  refine ⟨?_, ?_, ?_⟩
  · intro message start_date
    simp [create_announcement, require_auth, hauth]
  · intro announcement_id a m s hsome hfound
    have hguard : ¬(m = none ∧ s = none) := by
      cases m <;> cases s <;> simp_all
    obtain ⟨h1, h2, h3⟩ :=
      updateDocs_spec announcement_id m none s store.docs announcement_id a
        hfound
    simp [update_announcement, require_auth, hauth, hguard,
      AnnouncementsCollection.update_one, AnnouncementsCollection.find_one,
      h1, h2, applySet_eq]
  · intro announcement_id a e hfound
    obtain ⟨h1, h2, h3⟩ :=
      updateDocs_spec announcement_id none (some e) none store.docs
        announcement_id a hfound
    simp [update_announcement, require_auth, hauth,
      AnnouncementsCollection.update_one, AnnouncementsCollection.find_one,
      h1, h2, applySet_eq]

/-- Witness for the amended C9 at concrete inputs: create with empty
expiration fails; update omitting `expiration_date` keeps it; update
supplying the empty string stores it unvalidated. -/
theorem expiration_enforced_only_on_create_witness :
    create_announcement storeEx teachersEx "m" "" none "jdoe"
      = (.error .validationError, storeEx) ∧
    (update_announcement storeEx teachersEx "0" (some "x") none none
        "jdoe").2.find_one "0"
      = some ("0", ⟨"x", none, "2025-01-10T00:00:00", "jdoe"⟩) ∧
    (update_announcement storeEx teachersEx "0" none (some "") none
        "jdoe").2.find_one "0"
      = some ("0", ⟨"Picture day", none, "", "jdoe"⟩) := by
  have h := expiration_enforced_only_on_create storeEx teachersEx "jdoe"
    "jdoe" ⟨"jdoe"⟩ rfl
  exact ⟨h.1 "m" none,
    h.2.1 "0" ⟨"Picture day", none, "2025-01-10T00:00:00", "jdoe"⟩ (some "x")
      none rfl rfl,
    h.2.2 "0" ⟨"Picture day", none, "2025-01-10T00:00:00", "jdoe"⟩ "" rfl⟩

/-- Witness for C8 at a concrete input: the record created by `jdoe` shows up
in a subsequent unfiltered list. -/
theorem create_then_list_roundtrip_witness :
    (⟨"Picture day", none, "2025-01-10T00:00:00", "jdoe", "0"⟩ : AnnouncementOut)
      ∈ get_announcements
          (create_announcement emptyStore teachersEx "Picture day"
            "2025-01-10T00:00:00" none "jdoe").2 false "2025-01-05T00:00:00" :=
  create_then_list_roundtrip emptyStore teachersEx "Picture day"
    "2025-01-10T00:00:00" none "jdoe" "2025-01-05T00:00:00"
    ⟨"Picture day", none, "2025-01-10T00:00:00", "jdoe", "0"⟩ rfl
